import Mathlib

/-!
Shallow embedding of the tympanix/nexus-cli transfer core
(src/nexuscli/nexus_download.py, src/nexuscli/nexus_upload.py, src/nexus.py,
src/nexus-dl.py), together with theorems settling the specification claims.

HTTP and filesystem interaction is made explicit: server behaviour is an
input (the sequence of search response pages, the per-download outcome, the
result of the single upload POST), and the side effects the code performs
(search requests issued, directories created, GETs issued, files written,
text printed) are returned as data.  All strings are modelled with POSIX
path conventions (`os.sep = "/"`), matching the deployment the code targets.
-/

namespace Nexus

/-- Default base URL, from `NEXUS_URL = os.environ.get("NEXUS_URL", "http://localhost:8081")`;
the URL is an opaque string as far as the claims are concerned. -/
def NEXUS_URL : String := "http://localhost:8081"

/-- Python `s.lstrip("/")`: remove every leading slash. -/
def lstrip_slash (s : String) : String :=
  String.mk (s.data.dropWhile (fun c => c == '/'))

/-- POSIX `os.path.join(d, p)`: an absolute `p` replaces `d`; otherwise the two
are joined, inserting a slash unless `d` is empty or already ends in one. -/
def os_path_join (d p : String) : String :=
  if p.data.head? = some '/' then p
  else if d = "" then p
  else if d.data.getLast? = some '/' then d ++ p
  else d ++ "/" ++ p

/-- POSIX `os.path.dirname(p)`: the text up to the final slash, with trailing
slashes stripped unless the result consists of slashes only. -/
def os_path_dirname (p : String) : String :=
  let head := (p.data.reverse.dropWhile (fun c => c != '/')).reverse
  if head.all (fun c => c == '/') then String.mk head
  else String.mk ((head.reverse.dropWhile (fun c => c == '/')).reverse)

/-- POSIX `os.path.basename(p)`: the text after the final slash. -/
def os_path_basename (p : String) : String :=
  String.mk (p.data.reverse.takeWhile (fun c => c != '/')).reverse

/-- Python `os.path.relpath(p, start)`, restricted to the use sites in
`upload_files`: every path handed to it comes from `os.walk(start)` and hence
extends `start` with a slash, where `relpath` returns the remainder. -/
def os_path_relpath (p start : String) : String :=
  if p.data.take (start.data.length + 1) = start.data ++ ['/'] then
    String.mk (p.data.drop (start.data.length + 1))
  else p

/-- Python `s.split("/", 1)` for a string that contains a slash: the text
before the first slash, and everything after it. -/
def split_first (s : String) : String × String :=
  (String.mk (s.data.takeWhile (fun c => c != '/')),
   String.mk ((s.data.dropWhile (fun c => c != '/')).drop 1))

/-! ## Download model (src/nexuscli/nexus_download.py) -/

/-- One record returned by the search endpoint; only the two keys the code
reads (`downloadUrl`, `path`) are modelled. -/
structure Asset where
  downloadUrl : String
  path : String
deriving DecidableEq

/-- One response of the search endpoint: HTTP status, `response.text`, the
parsed `items` array and the optional `continuationToken`. -/
structure SearchPage where
  status : Nat
  body : String
  items : List Asset
  continuationToken : Option String
deriving DecidableEq

/-- The query parameters of one search request, as assembled in `list_assets`. -/
structure SearchParams where
  repository : String
  format : String
  direction : String
  sort : String
  q : String
  continuationToken : Option String
deriving DecidableEq

/-- The `params` dict of `list_assets` in src/nexuscli/nexus_download.py;
note the leading slash in `q`, from `f"/{src}/*"`. -/
def list_assets_params (repository src : String) (tok : Option String) : SearchParams :=
  { repository := repository, format := "raw", direction := "asc", sort := "name",
    q := "/" ++ src ++ "/*", continuationToken := tok }

/-- Python truthiness of the continuation token: `None` and the empty string
stop the loop (`if not continuation_token: break`). -/
def tokTruthy : Option String → Bool
  | none => false
  | some t => t != ""

/-- The `while True` loop of `list_assets`, driven by the successive server
responses `pages`.  Returns the requests issued and either the accumulated
asset list or the exception message raised on a non-200 page. -/
def list_assets_go (repository src : String) :
    List SearchPage → Option String → List Asset →
    List SearchParams × Except String (List Asset)
  | [], _, acc => ([], Except.ok acc)
  | page :: rest, tok, acc =>
    let req := list_assets_params repository src tok
    if page.status != 200 then
      ([req], Except.error ("Failed to list assets: " ++ toString page.status ++ " " ++ page.body))
    else
      let acc2 := acc ++ page.items
      if tokTruthy page.continuationToken then
        let r := list_assets_go repository src rest page.continuationToken acc2
        (req :: r.1, r.2)
      else
        ([req], Except.ok acc2)

/-- `list_assets(repository, src)` of src/nexuscli/nexus_download.py. -/
def list_assets (repository src : String) (pages : List SearchPage) :
    List SearchParams × Except String (List Asset) :=
  list_assets_go repository src pages none []

/-- A well-formed server conversation: at least one response, every response
before the last carries a (truthy) continuation token and the last does not,
so the loop consumes exactly the given pages. -/
def chained : List SearchPage → Bool
  | [] => false
  | [p] => !(tokTruthy p.continuationToken)
  | p :: rest => tokTruthy p.continuationToken && chained rest

/-- Observable side effects of the download pipeline. -/
inductive Effect where
  | searchReq (p : SearchParams)
  | makedirs (path : String)
  | httpGet (url : String)
  | fileWrite (path : String)
deriving DecidableEq

/-- Whether an effect is the HTTP GET of one download task. -/
def isHttpGet : Effect → Bool
  | Effect.httpGet _ => true
  | _ => false

/-- Whether an effect is a search request. -/
def isSearchReq : Effect → Bool
  | Effect.searchReq _ => true
  | _ => false

/-- The local destination path computed by `download_asset`:
`os.path.join(dest_dir, asset['path'].lstrip("/"))`. -/
def local_path (dest_dir : String) (asset : Asset) : String :=
  os_path_join dest_dir (lstrip_slash asset.path)

/-- `download_asset(asset, dest_dir)`: create the parent directories, issue the
GET, and stream the body to the local file.  `oc` is the oracle for the
exception (HTTP error status via `raise_for_status`, network or disk failure)
raised by this task, `none` meaning the task succeeds. -/
def download_asset (asset : Asset) (dest_dir : String) (oc : Option String) :
    List Effect × Except String Unit :=
  let lp := local_path dest_dir asset
  let effs := [Effect.makedirs (os_path_dirname lp), Effect.httpGet asset.downloadUrl]
  match oc with
  | some e => (effs, Except.error e)
  | none => (effs ++ [Effect.fileWrite lp], Except.ok ())

/-- The executor loop of `download_folder`: every submitted task runs, each
exception is caught and appended to `errors`.  The thread pool is serialised
in submission order; the effects and the error count are invariant under the
completion order that `as_completed` actually observes. -/
def run_tasks (dest_dir : String) : List Asset → List (Option String) → List Effect × Nat
  | [], _ => ([], 0)
  | a :: rest, ocs =>
    let r := download_asset a dest_dir (ocs.headD none)
    let rr := run_tasks dest_dir rest ocs.tail
    (r.1 ++ rr.1, (match r.2 with | Except.ok _ => 0 | Except.error _ => 1) + rr.2)

deriving instance DecidableEq for Except

/-- Outcome of one `download_folder` invocation: effects performed, the
succeeded/failed counts it reports, and its return value (`Except.error`
models the uncaught exception from `list_assets`). -/
structure DownloadRun where
  effects : List Effect
  succeeded : Nat
  failed : Nat
  result : Except String Bool
deriving DecidableEq

/-- `download_folder(src_arg, dest_dir, quiet)` of src/nexuscli/nexus_download.py,
with the server conversation `pages` and the per-task outcome oracle `ocs` as
explicit inputs. -/
def download_folder (src_arg dest_dir : String) (quiet : Bool)
    (pages : List SearchPage) (ocs : List (Option String)) : DownloadRun :=
  if !(src_arg.data.contains '/') then
    { effects := [], succeeded := 0, failed := 0, result := Except.ok false }
  else
    let pr := split_first src_arg
    let la := list_assets pr.1 pr.2 pages
    let searchEffs := la.1.map Effect.searchReq
    match la.2 with
    | Except.error e =>
        { effects := searchEffs, succeeded := 0, failed := 0, result := Except.error e }
    | Except.ok assets =>
      if assets.isEmpty then
        { effects := searchEffs, succeeded := 0, failed := 0, result := Except.ok true }
      else
        let r := run_tasks dest_dir assets ocs
        { effects := searchEffs ++ r.1,
          succeeded := assets.length - r.2, failed := r.2,
          result := Except.ok (r.2 == 0) }

/-! ## Upload model (src/nexuscli/nexus_upload.py, src/nexus.py) -/

/-- The response of the single upload POST: HTTP status and `response.text`. -/
structure UploadResp where
  status : Nat
  text : String
deriving DecidableEq

/-- One value of the `fields` dict handed to `MultipartEncoder`: either a
`(filename, open-file-object)` pair — the handle is identified by the path it
was opened on — or a `(None, text)` text part. -/
inductive FieldVal where
  | filePart (filename : String) (handle : String)
  | textPart (value : Option String)
deriving DecidableEq

/-- The single multipart POST issued by `upload_files`: its URL and its field
list in insertion order (the keys `raw.asset<i>`, `raw.asset<i>.filename`,
`raw.directory` are pairwise distinct, so the Python dict preserves exactly
this sequence). -/
structure PostRequest where
  url : String
  fields : List (String × FieldVal)
deriving DecidableEq

/-- Outcome of one `upload_files` invocation: the POST requests issued, the
file handles opened and the ones closed, the lines printed, and the exception
propagated out of the call (`none` when it returns normally). -/
structure UploadRun where
  requests : List PostRequest
  openedHandles : List String
  closedHandles : List String
  printed : List String
  raised : Option String
deriving DecidableEq

/-- The field-building loop of `upload_files`: `for idx, file_path in
enumerate(file_paths, 1)`, producing `raw.asset<idx>` (base name plus the
handle opened on the file) and `raw.asset<idx>.filename` (the relative path
with `os.sep` — `"/"` on POSIX — replaced by `"/"`). -/
def build_fields_go (src : String) : Nat → List String → List (String × FieldVal)
  | _, [] => []
  | idx, fp :: rest =>
    let rel := ((os_path_relpath fp src).replace "/" "/")
    ("raw.asset" ++ toString idx, FieldVal.filePart (os_path_basename fp) fp)
      :: ("raw.asset" ++ toString idx ++ ".filename", FieldVal.textPart (some rel))
      :: build_fields_go src (idx + 1) rest

/-- The complete `fields` dict of `upload_files`: the per-file parts followed
by `fields['raw.directory'] = (None, subdir)`. -/
def build_fields (src : String) (file_paths : List String) (subdir : Option String) :
    List (String × FieldVal) :=
  build_fields_go src 1 file_paths ++ [("raw.directory", FieldVal.textPart subdir)]

/-- The handles opened while building the fields (one `open(file_path, 'rb')`
per file part, in field order). -/
def opened_handles (fields : List (String × FieldVal)) : List String :=
  fields.filterMap (fun f => match f.2 with
    | FieldVal.filePart _ h => some h
    | FieldVal.textPart _ => none)

/-- `upload_files(src, repository, subdir, quiet)` of src/nexuscli/nexus_upload.py.
`file_paths` is the result of `collect_files(src)` (the files under `src` in
`os.walk` order) and `post` is the oracle for the single `requests.post` call:
`Except.error` models a transport-level exception raised by the call itself,
`Except.ok` the response it returns.  When the POST raises, the exception
propagates before `progress.close()` and before the handle-closing loop, so
nothing is closed; when it returns, the loop closes exactly the tuple values
that have a `close` attribute, i.e. every file part, and the function prints
one line (unless quiet) chosen by `response.status_code == 204` and returns
`None`. -/
def upload_files (src : String) (file_paths : List String) (repository : String)
    (subdir : Option String) (quiet : Bool) (post : Except String UploadResp) : UploadRun :=
  let fields := build_fields src file_paths subdir
  let url := NEXUS_URL ++ "/service/rest/v1/components?repository=" ++ repository
  let opened := opened_handles fields
  match post with
  | Except.error e =>
      { requests := [{ url := url, fields := fields }],
        openedHandles := opened, closedHandles := [], printed := [], raised := some e }
  | Except.ok resp =>
      { requests := [{ url := url, fields := fields }],
        openedHandles := opened, closedHandles := opened,
        printed :=
          if quiet then []
          else if resp.status == 204 then
            ["Uploaded " ++ toString file_paths.length ++ " files from " ++ src]
          else
            ["Failed to upload files: " ++ toString resp.status ++ " " ++ resp.text],
        raised := none }

/-- `main(args)` of src/nexuscli/nexus_upload.py plus the process exit status:
the destination is split at its first slash into repository and subdirectory,
`upload_files` is invoked, and its return value is ignored — so the process
exits 0 whenever `upload_files` returns, and 1 only when an uncaught
exception propagates out of it. -/
def upload_main (src dest : String) (file_paths : List String) (quiet : Bool)
    (post : Except String UploadResp) : UploadRun × Nat :=
  let rs :=
    if dest.data.contains '/' then
      let pr := split_first dest
      (pr.1, some pr.2)
    else (dest, none)
  let run := upload_files src file_paths rs.1 rs.2 quiet post
  (run, match run.raised with | some _ => 1 | none => 0)

/-- The multipart field list as §4.3/§6 of the spec describe it: for each file
i (1-based, in walk order) a part `raw.asset<i>` whose filename is the file's
base name, a sibling text part `raw.asset<i>.filename` holding the file's
forward-slash-normalised path relative to the source directory, and one final
text part `raw.directory` holding the optional subdirectory. -/
def specUploadFields (src : String) (file_paths : List String) (subdir : Option String) :
    List (String × FieldVal) :=
  (List.enumFrom 1 file_paths).flatMap (fun fi =>
    [("raw.asset" ++ toString fi.1, FieldVal.filePart (os_path_basename fi.2) fi.2),
     ("raw.asset" ++ toString fi.1 ++ ".filename",
        FieldVal.textPart (some ((os_path_relpath fi.2 src).replace "/" "/")))])
  ++ [("raw.directory", FieldVal.textPart subdir)]

/-! ## Helper lemmas -/

theorem data_append (s t : String) : (s ++ t).data = s.data ++ t.data := rfl

theorem string_ext {s t : String} (h : s.data = t.data) : s = t := by
  cases s; cases t; cases h; rfl

/-- One loop iteration on a non-200 page: the request is issued and the
exception is raised at once. -/
theorem go_cons_err (repository src : String) (p : SearchPage) (rest : List SearchPage)
    (tok : Option String) (acc : List Asset) (hs : p.status ≠ 200) :
    list_assets_go repository src (p :: rest) tok acc =
      ([list_assets_params repository src tok],
       Except.error ("Failed to list assets: " ++ toString p.status ++ " " ++ p.body)) := by
  simp [list_assets_go, hs]

/-- One loop iteration on a 200 page whose continuation token is falsy: the
loop accumulates the items and stops. -/
theorem go_cons_stop (repository src : String) (p : SearchPage) (rest : List SearchPage)
    (tok : Option String) (acc : List Asset) (hs : p.status = 200)
    (ht : tokTruthy p.continuationToken = false) :
    list_assets_go repository src (p :: rest) tok acc =
      ([list_assets_params repository src tok], Except.ok (acc ++ p.items)) := by
  simp [list_assets_go, hs, ht]

/-- One loop iteration on a 200 page carrying a truthy continuation token: the
loop accumulates the items and continues with that token. -/
theorem go_cons_ok (repository src : String) (p : SearchPage) (rest : List SearchPage)
    (tok : Option String) (acc : List Asset) (hs : p.status = 200)
    (ht : tokTruthy p.continuationToken = true) :
    list_assets_go repository src (p :: rest) tok acc =
      (list_assets_params repository src tok ::
         (list_assets_go repository src rest p.continuationToken (acc ++ p.items)).1,
       (list_assets_go repository src rest p.continuationToken (acc ++ p.items)).2) := by
  simp [list_assets_go, hs, ht]

/-- Under a well-formed server conversation, the paging loop of `list_assets`
aborts at the first non-200 page with exactly that page's status and body in
the error, and otherwise accumulates every page's items in page order. -/
theorem list_assets_go_spec (repository src : String) :
    ∀ (pages : List SearchPage) (tok : Option String) (acc : List Asset),
    chained pages = true →
    (list_assets_go repository src pages tok acc).2 =
      match pages.find? (fun p => p.status != 200) with
      | some p =>
          Except.error ("Failed to list assets: " ++ toString p.status ++ " " ++ p.body)
      | none => Except.ok (acc ++ pages.flatMap SearchPage.items) := by
  intro pages
  induction pages with
  | nil => intro tok acc h; simp [chained] at h
  | cons p rest ih =>
    intro tok acc hch
    by_cases hs : p.status = 200
    · cases rest with
      | nil =>
        have ht : tokTruthy p.continuationToken = false := by
          simpa [chained] using hch
        rw [go_cons_stop repository src p [] tok acc hs ht]
        rw [List.find?_cons_of_neg _ (by simp [hs])]
        simp
      | cons q rest2 =>
        have hch2 : tokTruthy p.continuationToken = true ∧ chained (q :: rest2) = true := by
          simpa [chained] using hch
        have hrec := ih p.continuationToken (acc ++ p.items) hch2.2
        rw [go_cons_ok repository src p (q :: rest2) tok acc hs hch2.1]
        rw [List.find?_cons_of_neg _ (by simp [hs])]
        dsimp only
        rw [hrec]
        cases hf : List.find? (fun r_ => r_.status != 200) (q :: rest2) with
        | none => simp
        | some bad => rfl
    · rw [go_cons_err repository src p rest tok acc hs]
      rw [List.find?_cons_of_pos _ (by simp [hs])]

/-- Evaluation of `download_folder` when the src argument has no slash: it
returns False at once, performing nothing. -/
theorem download_folder_no_slash_eq (src_arg dest_dir : String) (quiet : Bool)
    (pages : List SearchPage) (ocs : List (Option String))
    (hc : src_arg.data.contains '/' = false) :
    download_folder src_arg dest_dir quiet pages ocs =
      { effects := [], succeeded := 0, failed := 0, result := Except.ok false } := by
  unfold download_folder
  rw [hc]
  rfl

/-- Evaluation of `download_folder` when the src argument has a slash and
`list_assets` raises: the exception propagates and only search requests have
been issued. -/
theorem download_folder_err_eq (src_arg dest_dir : String) (quiet : Bool)
    (pages : List SearchPage) (ocs : List (Option String)) (e : String)
    (hc : src_arg.data.contains '/' = true)
    (hla : (list_assets (split_first src_arg).1 (split_first src_arg).2 pages).2
      = Except.error e) :
    download_folder src_arg dest_dir quiet pages ocs =
      { effects := (list_assets (split_first src_arg).1 (split_first src_arg).2 pages).1.map
          Effect.searchReq,
        succeeded := 0, failed := 0, result := Except.error e } := by
  unfold download_folder
  rw [hc]
  simp only [Bool.not_true, Bool.false_eq_true, if_false, hla]

/-- Evaluation of `download_folder` when the src argument has a slash and
`list_assets` returns an asset list. -/
theorem download_folder_ok_eq (src_arg dest_dir : String) (quiet : Bool)
    (pages : List SearchPage) (ocs : List (Option String)) (assets : List Asset)
    (hc : src_arg.data.contains '/' = true)
    (hla : (list_assets (split_first src_arg).1 (split_first src_arg).2 pages).2
      = Except.ok assets) :
    download_folder src_arg dest_dir quiet pages ocs =
      (if assets.isEmpty then
        { effects := (list_assets (split_first src_arg).1 (split_first src_arg).2 pages).1.map
            Effect.searchReq,
          succeeded := 0, failed := 0, result := Except.ok true }
      else
        { effects := (list_assets (split_first src_arg).1 (split_first src_arg).2 pages).1.map
            Effect.searchReq ++ (run_tasks dest_dir assets ocs).1,
          succeeded := assets.length - (run_tasks dest_dir assets ocs).2,
          failed := (run_tasks dest_dir assets ocs).2,
          result := Except.ok ((run_tasks dest_dir assets ocs).2 == 0) }) := by
  unfold download_folder
  rw [hc]
  simp only [Bool.not_true, Bool.false_eq_true, if_false, hla]

/-! ## Claim theorems -/

/-- C10: when the download src argument contains no slash, `download_folder`
returns a failure indication immediately, issuing no HTTP request and
creating or writing no file or directory. -/
theorem c10_no_slash_src (src_arg dest_dir : String) (quiet : Bool)
    (pages : List SearchPage) (ocs : List (Option String))
    (h : src_arg.data.contains '/' = false) :
    (download_folder src_arg dest_dir quiet pages ocs).effects = [] ∧
    (download_folder src_arg dest_dir quiet pages ocs).result = Except.ok false := by
  rw [download_folder_no_slash_eq src_arg dest_dir quiet pages ocs h]
  exact ⟨rfl, rfl⟩

theorem c10_no_slash_src_witness :
    (download_folder "repo" "out" false [] []).effects = [] ∧
    (download_folder "repo" "out" false [] []).result = Except.ok false :=
  c10_no_slash_src "repo" "out" false [] [] (by decide)

/-- C1: the upload exit-status claim fails on the code.  When the single POST
returns a non-204 response, `upload_files` merely prints (and in quiet mode
prints nothing at all) and returns `None`, and `main` ignores that value, so
the process exits 0 even though the upload did not return 204. -/
theorem c1_exit_code_on_failed_upload :
    (upload_main "d" "repo" ["d/f"] true (Except.ok ⟨500, "oops"⟩)).2 = 0 ∧
    (upload_main "d" "repo" ["d/f"] true (Except.ok ⟨500, "oops"⟩)).1.printed = [] ∧
    (upload_main "d" "repo" ["d/f"] false (Except.ok ⟨500, "oops"⟩)).2 = 0 ∧
    (upload_main "d" "repo" ["d/f"] false (Except.ok ⟨500, "oops"⟩)).1.printed
      = ["Failed to upload files: 500 oops"] ∧
    (500 : Nat) ≠ 204 := by
  refine ⟨rfl, rfl, rfl, ?_, by decide⟩
  decide

/-- C5: the handle-release claim fails on the code.  When `requests.post`
itself raises a transport-level error, the exception propagates before the
close loop runs, so every file handle opened for the multipart request is
left open. -/
theorem c5_handles_leak_on_transport_error :
    (upload_files "d" ["d/f"] "repo" none false (Except.error "connection error")).openedHandles
      = ["d/f"] ∧
    (upload_files "d" ["d/f"] "repo" none false (Except.error "connection error")).closedHandles
      = [] ∧
    (upload_files "d" ["d/f"] "repo" none false (Except.error "connection error")).raised
      = some "connection error" := by
  refine ⟨?_, rfl, rfl⟩
  decide

/-- C3: for every server conversation ending in a page without a continuation
token, `list_assets` follows the tokens until none is returned and outputs the
concatenation of all pages' items in page order; in particular a zero-item
result is a zero-length list, not an error. -/
theorem c3_pagination (repository src : String) (pages : List SearchPage)
    (hch : chained pages = true)
    (hok : pages.all (fun p => p.status == 200) = true) :
    (list_assets repository src pages).2 = Except.ok (pages.flatMap SearchPage.items) := by
  have h := list_assets_go_spec repository src pages none [] hch
  have hfind : pages.find? (fun p => p.status != 200) = none := by
    rw [List.find?_eq_none]
    intro x hx
    have hx200 := List.all_eq_true.mp hok x hx
    simp at hx200
    simp [hx200]
  rw [list_assets, h, hfind]
  simp

theorem c3_pagination_witness :
    (list_assets "r" "x"
        [⟨200, "", [⟨"u1", "x/1.txt"⟩], some "t"⟩, ⟨200, "", [⟨"u2", "x/2.txt"⟩], none⟩]).2
      = Except.ok [⟨"u1", "x/1.txt"⟩, ⟨"u2", "x/2.txt"⟩] ∧
    (list_assets "r" "x" [⟨200, "", [], none⟩]).2 = Except.ok [] :=
  ⟨c3_pagination "r" "x" _ (by decide) (by decide),
   c3_pagination "r" "x" _ (by decide) (by decide)⟩

/-- C4 counterexample: the claim says listing succeeds whenever every page
response is 2xx, but the code tests `status_code != 200`; a single page with
the 2xx status 204 makes `list_assets` raise. -/
theorem c4_counterexample :
    (200 ≤ 204 ∧ 204 < 300) ∧
    (list_assets "r" "x" [⟨204, "nobody", [], none⟩]).2
      = Except.error "Failed to list assets: 204 nobody" := by
  refine ⟨by decide, ?_⟩
  decide

/-- C4 (amended: the code accepts exactly status 200, not the whole 2xx
class): if any requested search page has a non-200 status, `list_assets`
aborts at the first such page with exactly one error carrying that status
code and body, the caller receives no partial list (the error carries no
records), and `download_folder` attempts no download task in that case; and
listing succeeds precisely when every page response has status 200. -/
theorem c4_error_abort (repository src : String) (pages : List SearchPage)
    (hch : chained pages = true) :
    ((list_assets repository src pages).2 =
      match pages.find? (fun p => p.status != 200) with
      | some p =>
          Except.error ("Failed to list assets: " ++ toString p.status ++ " " ++ p.body)
      | none => Except.ok (pages.flatMap SearchPage.items)) ∧
    (∀ (src_arg dest_dir : String) (quiet : Bool) (ocs : List (Option String)) (e : String),
      (download_folder src_arg dest_dir quiet pages ocs).result = Except.error e →
      (download_folder src_arg dest_dir quiet pages ocs).effects.all isSearchReq = true) := by
  constructor
  · have h := list_assets_go_spec repository src pages none [] hch
    rw [list_assets, h]
    cases pages.find? (fun p => p.status != 200) with
    | none => simp
    | some bad => rfl
  · intro src_arg dest_dir quiet ocs e hres
    by_cases hc : src_arg.data.contains '/' = true
    · cases hla : (list_assets (split_first src_arg).1 (split_first src_arg).2 pages).2 with
      | error e2 =>
        rw [download_folder_err_eq src_arg dest_dir quiet pages ocs e2 hc hla]
        simp [List.all_eq_true, isSearchReq]
      | ok assets =>
        rw [download_folder_ok_eq src_arg dest_dir quiet pages ocs assets hc hla] at hres
        by_cases he : assets.isEmpty <;> simp [he] at hres
    · have hc2 : src_arg.data.contains '/' = false := by
        cases h2 : src_arg.data.contains '/' with
        | false => rfl
        | true => exact absurd h2 hc
      rw [download_folder_no_slash_eq src_arg dest_dir quiet pages ocs hc2] at hres
      simp at hres

theorem c4_error_abort_witness :
    (list_assets "r" "x" [⟨500, "boom", [], none⟩]).2
      = Except.error "Failed to list assets: 500 boom" :=
  (c4_error_abort "r" "x" [⟨500, "boom", [], none⟩] (by decide)).1

/-- Every request the paging loop issues carries the fixed parameter set of
the `params` dict. -/
theorem go_params_fixed (repository src : String) :
    ∀ (pages : List SearchPage) (tok : Option String) (acc : List Asset),
    ((list_assets_go repository src pages tok acc).1.all (fun q_ =>
        q_.repository == repository && q_.format == "raw" && q_.direction == "asc" &&
        q_.sort == "name" && q_.q == "/" ++ src ++ "/*")) = true := by
  intro pages
  induction pages with
  | nil => intro tok acc; simp [list_assets_go]
  | cons p rest ih =>
    intro tok acc
    by_cases hs : p.status = 200
    · by_cases ht : tokTruthy p.continuationToken = true
      · rw [go_cons_ok repository src p rest tok acc hs ht]
        dsimp only
        rw [List.all_cons]
        refine (Bool.and_eq_true _ _).mpr ⟨?_, ih p.continuationToken (acc ++ p.items)⟩
        simp [list_assets_params]
      · rw [go_cons_stop repository src p rest tok acc hs (by simpa using ht)]
        simp [list_assets_params]
    · rw [go_cons_err repository src p rest tok acc hs]
      simp [list_assets_params]

/-- The continuation tokens carried by the issued requests are exactly the
first requests' worth of the sequence: the initial token, then each page's
returned token. -/
theorem go_params_tokens (repository src : String) :
    ∀ (pages : List SearchPage) (tok : Option String) (acc : List Asset),
    (list_assets_go repository src pages tok acc).1.map (fun q_ => q_.continuationToken) =
      (tok :: pages.map (fun p => p.continuationToken)).take
        (list_assets_go repository src pages tok acc).1.length := by
  intro pages
  induction pages with
  | nil => intro tok acc; simp [list_assets_go]
  | cons p rest ih =>
    intro tok acc
    by_cases hs : p.status = 200
    · by_cases ht : tokTruthy p.continuationToken = true
      · rw [go_cons_ok repository src p rest tok acc hs ht]
        dsimp only
        rw [List.map_cons, ih p.continuationToken (acc ++ p.items)]
        simp [list_assets_params]
      · rw [go_cons_stop repository src p rest tok acc hs (by simpa using ht)]
        simp [list_assets_params]
    · rw [go_cons_err repository src p rest tok acc hs]
      simp [list_assets_params]

/-- When the loop is entered with a truthy token, every request it issues
carries a present continuation token. -/
theorem go_params_some (repository src : String) :
    ∀ (pages : List SearchPage) (tok : Option String) (acc : List Asset),
    tokTruthy tok = true →
    ((list_assets_go repository src pages tok acc).1.all
        (fun q_ => q_.continuationToken.isSome)) = true := by
  intro pages
  induction pages with
  | nil => intro tok acc _; simp [list_assets_go]
  | cons p rest ih =>
    intro tok acc htok
    have hsome : tok.isSome = true := by
      cases tok with
      | none => simp [tokTruthy] at htok
      | some t => rfl
    by_cases hs : p.status = 200
    · by_cases ht : tokTruthy p.continuationToken = true
      · rw [go_cons_ok repository src p rest tok acc hs ht]
        dsimp only
        rw [List.all_cons]
        refine (Bool.and_eq_true _ _).mpr ⟨?_, ih p.continuationToken (acc ++ p.items) ht⟩
        simpa [list_assets_params] using hsome
      · rw [go_cons_stop repository src p rest tok acc hs (by simpa using ht)]
        simpa [list_assets_params] using hsome
    · rw [go_cons_err repository src p rest tok acc hs]
      simpa [list_assets_params] using hsome

/-- C9 (amended: in src/nexuscli/nexus_download.py the glob pattern carries a
leading slash, `q = "/" + p + "/*"`): every search request issued by
`list_assets` for path p carries exactly repository, format=raw,
direction=asc, sort=name and q="/p/*", and a continuationToken exactly when a
prior page returned one (the first request carries none; request i+1 carries
page i's token, always present). -/
theorem c9_search_params (repository src : String) (pages : List SearchPage) :
    ((list_assets repository src pages).1.all (fun q_ =>
        q_.repository == repository && q_.format == "raw" && q_.direction == "asc" &&
        q_.sort == "name" && q_.q == "/" ++ src ++ "/*") = true) ∧
    ((list_assets repository src pages).1.map (fun q_ => q_.continuationToken) =
      (none :: pages.map (fun p => p.continuationToken)).take
        (list_assets repository src pages).1.length) ∧
    (((list_assets repository src pages).1.drop 1).all
        (fun q_ => q_.continuationToken.isSome) = true) := by
  refine ⟨go_params_fixed repository src pages none [],
          go_params_tokens repository src pages none [], ?_⟩
  rw [list_assets]
  cases pages with
  | nil => simp [list_assets_go]
  | cons p rest =>
    by_cases hs : p.status = 200
    · by_cases ht : tokTruthy p.continuationToken = true
      · rw [go_cons_ok repository src p rest none [] hs ht]
        dsimp only
        rw [List.drop_one, List.tail_cons]
        exact go_params_some repository src rest p.continuationToken ([] ++ p.items) ht
      · rw [go_cons_stop repository src p rest none [] hs (by simpa using ht)]
        simp
    · rw [go_cons_err repository src p rest none [] hs]
      simp

/-- Indexing into the tail shifts the index by one. -/
theorem getD_tail {α : Type} (l : List α) (i : Nat) (d : α) :
    l.tail.getD i d = l.getD (i + 1) d := by
  cases l <;> simp [List.getD]

/-- Indexing at zero is the head. -/
theorem getD_zero_eq_headD {α : Type} (l : List α) (d : α) :
    l.getD 0 d = l.headD d := by
  cases l <;> simp [List.getD]

/-- One step of the executor loop. -/
theorem run_tasks_cons (dest_dir : String) (a : Asset) (rest : List Asset)
    (ocs : List (Option String)) :
    run_tasks dest_dir (a :: rest) ocs =
      ((download_asset a dest_dir (ocs.headD none)).1 ++ (run_tasks dest_dir rest ocs.tail).1,
       (match (download_asset a dest_dir (ocs.headD none)).2 with
        | Except.ok _ => 0
        | Except.error _ => 1) + (run_tasks dest_dir rest ocs.tail).2) := rfl

/-- The executor records at most one error per submitted task. -/
theorem run_tasks_errs_le (dest_dir : String) :
    ∀ (assets : List Asset) (ocs : List (Option String)),
    (run_tasks dest_dir assets ocs).2 ≤ assets.length := by
  intro assets
  induction assets with
  | nil => intro ocs; simp [run_tasks]
  | cons a rest ih =>
    intro ocs
    have h := ih ocs.tail
    rw [run_tasks_cons]
    dsimp only
    rw [List.length_cons]
    cases hoc : ocs.headD none <;> simp only [download_asset] <;> omega

/-- The executor's error count is exactly the number of submitted tasks whose
outcome oracle reports a failure. -/
theorem run_tasks_errs_count (dest_dir : String) :
    ∀ (assets : List Asset) (ocs : List (Option String)),
    (run_tasks dest_dir assets ocs).2 =
      (List.range assets.length).countP (fun i => (ocs.getD i none).isSome) := by
  intro assets
  induction assets with
  | nil => intro ocs; simp [run_tasks]
  | cons a rest ih =>
    intro ocs
    rw [run_tasks_cons]
    dsimp only
    rw [List.length_cons, List.range_succ_eq_map, List.countP_cons]
    rw [List.countP_map]
    have hmap : (List.range rest.length).countP
        ((fun i => (ocs.getD i none).isSome) ∘ Nat.succ) =
        (List.range rest.length).countP (fun i => (ocs.tail.getD i none).isSome) := by
      apply List.countP_congr
      intro i _
      simp [Function.comp, getD_tail]
    rw [hmap, ← ih ocs.tail]
    rw [getD_zero_eq_headD]
    cases hoc : ocs.headD none <;> simp [download_asset] <;> omega

/-- Every submitted task issues exactly one HTTP GET, whatever its outcome. -/
theorem run_tasks_get_count (dest_dir : String) :
    ∀ (assets : List Asset) (ocs : List (Option String)),
    (run_tasks dest_dir assets ocs).1.countP isHttpGet = assets.length := by
  intro assets
  induction assets with
  | nil => intro ocs; simp [run_tasks]
  | cons a rest ih =>
    intro ocs
    have h := ih ocs.tail
    rw [run_tasks_cons]
    dsimp only
    rw [List.countP_append, h, List.length_cons]
    cases hoc : ocs.headD none <;>
        simp [download_asset, List.countP_cons, isHttpGet] <;>
      omega

/-- Search-request effects are not download attempts. -/
theorem searchReq_no_get (reqs : List SearchParams) :
    (reqs.map Effect.searchReq).countP isHttpGet = 0 := by
  rw [List.countP_map]
  rw [List.countP_eq_zero]
  intro a _
  simp [Function.comp, isHttpGet]

/-- C2: for every list of N download tasks with any mix of per-task success
and failure, `download_folder` reports counts with succeeded + failed = N,
and its return value signals failure exactly when at least one task failed. -/
theorem c2_counts (src_arg dest_dir : String) (quiet : Bool) (pages : List SearchPage)
    (ocs : List (Option String)) (assets : List Asset)
    (hc : src_arg.data.contains '/' = true)
    (hla : (list_assets (split_first src_arg).1 (split_first src_arg).2 pages).2
      = Except.ok assets) :
    (download_folder src_arg dest_dir quiet pages ocs).succeeded +
      (download_folder src_arg dest_dir quiet pages ocs).failed = assets.length ∧
    (download_folder src_arg dest_dir quiet pages ocs).result =
      Except.ok ((download_folder src_arg dest_dir quiet pages ocs).failed == 0) ∧
    ((download_folder src_arg dest_dir quiet pages ocs).result = Except.ok false ↔
      ∃ i, i < assets.length ∧ (ocs.getD i none).isSome = true) := by
  rw [download_folder_ok_eq src_arg dest_dir quiet pages ocs assets hc hla]
  by_cases he : assets.isEmpty
  · have hnil : assets = [] := List.isEmpty_iff.mp he
    subst hnil
    simp
  · rw [if_neg he]
    dsimp only
    refine ⟨Nat.sub_add_cancel (run_tasks_errs_le dest_dir assets ocs), rfl, ?_⟩
    rw [run_tasks_errs_count dest_dir assets ocs]
    simp only [Except.ok.injEq, beq_eq_false_iff_ne, ne_eq, ← Nat.pos_iff_ne_zero,
      List.countP_pos_iff, List.mem_range]

theorem c2_counts_witness :
    (download_folder "r/x" "out" false
        [⟨200, "", [⟨"u1", "x/1.txt"⟩, ⟨"u2", "x/2.txt"⟩], none⟩]
        [none, some "network error"]).succeeded +
      (download_folder "r/x" "out" false
        [⟨200, "", [⟨"u1", "x/1.txt"⟩, ⟨"u2", "x/2.txt"⟩], none⟩]
        [none, some "network error"]).failed = 2 :=
  (c2_counts "r/x" "out" false
    [⟨200, "", [⟨"u1", "x/1.txt"⟩, ⟨"u2", "x/2.txt"⟩], none⟩]
    [none, some "network error"]
    [⟨"u1", "x/1.txt"⟩, ⟨"u2", "x/2.txt"⟩] (by decide) (by decide)).1

/-- C6: one task's failure is caught and recorded without cancelling or
blocking the others: the coordinator never crashes (it returns a value), every
submitted task still performs its download attempt, the failure count is
exactly the set of failing tasks, and the success count is the rest. -/
theorem c6_isolation (src_arg dest_dir : String) (quiet : Bool) (pages : List SearchPage)
    (ocs : List (Option String)) (assets : List Asset)
    (hc : src_arg.data.contains '/' = true)
    (hla : (list_assets (split_first src_arg).1 (split_first src_arg).2 pages).2
      = Except.ok assets) :
    (∃ b, (download_folder src_arg dest_dir quiet pages ocs).result = Except.ok b) ∧
    (download_folder src_arg dest_dir quiet pages ocs).effects.countP isHttpGet
      = assets.length ∧
    (download_folder src_arg dest_dir quiet pages ocs).failed =
      (List.range assets.length).countP (fun i => (ocs.getD i none).isSome) ∧
    (download_folder src_arg dest_dir quiet pages ocs).succeeded =
      assets.length -
        (List.range assets.length).countP (fun i => (ocs.getD i none).isSome) := by
  rw [download_folder_ok_eq src_arg dest_dir quiet pages ocs assets hc hla]
  by_cases he : assets.isEmpty
  · have hnil : assets = [] := List.isEmpty_iff.mp he
    subst hnil
    refine ⟨⟨true, rfl⟩, ?_, rfl, rfl⟩
    exact searchReq_no_get _
  · rw [if_neg he]
    dsimp only
    refine ⟨⟨(run_tasks dest_dir assets ocs).2 == 0, rfl⟩, ?_, ?_, ?_⟩
    · rw [List.countP_append, searchReq_no_get, run_tasks_get_count dest_dir assets ocs]
      simp
    · exact run_tasks_errs_count dest_dir assets ocs
    · rw [run_tasks_errs_count dest_dir assets ocs]

theorem c6_isolation_witness :
    (download_folder "r/x" "out" false
        [⟨200, "", [⟨"u1", "x/1.txt"⟩, ⟨"u2", "x/2.txt"⟩], none⟩]
        [some "network error", none]).effects.countP isHttpGet = 2 :=
  (c6_isolation "r/x" "out" false
    [⟨200, "", [⟨"u1", "x/1.txt"⟩, ⟨"u2", "x/2.txt"⟩], none⟩]
    [some "network error", none]
    [⟨"u1", "x/1.txt"⟩, ⟨"u2", "x/2.txt"⟩] (by decide) (by decide)).2.1

/-- Appending the literal "/a/b/c.txt" to any directory string and taking the
POSIX dirname yields that directory extended by "/a/b". -/
theorem dirname_step (dest_dir : String) :
    os_path_dirname (dest_dir ++ "/a/b/c.txt") = dest_dir ++ "/a/b" := by
  have hne : ¬((List.dropWhile (fun c => c != '/') "/a/b/c.txt".data.reverse).isEmpty
      = true) := by decide
  have hconc : List.dropWhile (fun c => c != '/') "/a/b/c.txt".data.reverse
      = ['/', 'b', '/', 'a', '/'] := by decide
  have h1 : (dest_dir ++ "/a/b/c.txt").data.reverse.dropWhile (fun c => c != '/')
      = ['/', 'b', '/', 'a', '/'] ++ dest_dir.data.reverse := by
    rw [show (dest_dir ++ "/a/b/c.txt").data = dest_dir.data ++ "/a/b/c.txt".data from rfl]
    rw [List.reverse_append]
    rw [List.dropWhile_append, if_neg hne, hconc]
  have h2 : ((dest_dir ++ "/a/b/c.txt").data.reverse.dropWhile (fun c => c != '/')).reverse
      = dest_dir.data ++ ['/', 'a', '/', 'b', '/'] := by
    rw [h1, List.reverse_append, List.reverse_reverse]
    exact congrArg (fun l => dest_dir.data ++ l) (by decide)
  simp only [os_path_dirname]
  rw [h2]
  have h3 : (dest_dir.data ++ ['/', 'a', '/', 'b', '/']).all (fun c => c == '/') = false := by
    rw [List.all_append]
    rw [show (['/', 'a', '/', 'b', '/'] : List Char).all (fun c => c == '/') = false from
      by decide]
    exact Bool.and_false _
  rw [h3]
  simp only [Bool.false_eq_true, if_false]
  have hne2 : ¬((List.dropWhile (fun c => c == '/') ['/', 'b', '/', 'a', '/']).isEmpty
      = true) := by decide
  have h4 : (dest_dir.data ++ ['/', 'a', '/', 'b', '/']).reverse.dropWhile
      (fun c => c == '/') = ['b', '/', 'a', '/'] ++ dest_dir.data.reverse := by
    rw [List.reverse_append]
    rw [show (['/', 'a', '/', 'b', '/'] : List Char).reverse = ['/', 'b', '/', 'a', '/'] from
      by decide]
    rw [List.dropWhile_append, if_neg hne2]
    rw [show List.dropWhile (fun c => c == '/') ['/', 'b', '/', 'a', '/']
        = ['b', '/', 'a', '/'] from by decide]
  rw [h4, List.reverse_append, List.reverse_reverse]
  apply string_ext
  show dest_dir.data ++ (['b', '/', 'a', '/'] : List Char).reverse
      = dest_dir.data ++ "/a/b".data
  exact congrArg (fun l => dest_dir.data ++ l) (by decide)

/-- C7: the local destination path strips any leading separator from the
asset's path and joins the remainder under the destination directory: an
asset with path "a/b/c.txt" (or "/a/b/c.txt") under destination D is written
to exactly D/a/b/c.txt, and the task creates the intermediate directories
D/a/b before writing the file there. -/
theorem c7_local_dest_path (dest_dir url : String) (h1 : dest_dir ≠ "")
    (h2 : dest_dir.data.getLast? ≠ some '/') :
    local_path dest_dir ⟨url, "a/b/c.txt"⟩ = dest_dir ++ "/a/b/c.txt" ∧
    local_path dest_dir ⟨url, "/a/b/c.txt"⟩ = dest_dir ++ "/a/b/c.txt" ∧
    (download_asset ⟨url, "a/b/c.txt"⟩ dest_dir none).1 =
      [Effect.makedirs (dest_dir ++ "/a/b"), Effect.httpGet url,
       Effect.fileWrite (dest_dir ++ "/a/b/c.txt")] := by
  have hjoin : os_path_join dest_dir "a/b/c.txt" = dest_dir ++ "/a/b/c.txt" := by
    unfold os_path_join
    rw [if_neg (by decide), if_neg h1, if_neg h2]
    apply string_ext
    show (dest_dir.data ++ "/".data) ++ "a/b/c.txt".data
        = dest_dir.data ++ "/a/b/c.txt".data
    rw [List.append_assoc]
    exact congrArg (fun l => dest_dir.data ++ l) (by decide)
  have hpath1 : lstrip_slash "a/b/c.txt" = "a/b/c.txt" := by decide
  have hpath2 : lstrip_slash "/a/b/c.txt" = "a/b/c.txt" := by decide
  have hlp1 : local_path dest_dir ⟨url, "a/b/c.txt"⟩ = dest_dir ++ "/a/b/c.txt" := by
    simp only [local_path]
    rw [hpath1, hjoin]
  have hlp2 : local_path dest_dir ⟨url, "/a/b/c.txt"⟩ = dest_dir ++ "/a/b/c.txt" := by
    simp only [local_path]
    rw [hpath2, hjoin]
  refine ⟨hlp1, hlp2, ?_⟩
  unfold download_asset
  dsimp only
  rw [hlp1, dirname_step dest_dir]
  rfl

theorem c7_local_dest_path_witness :
    local_path "/tmp/out" ⟨"u", "a/b/c.txt"⟩ = "/tmp/out" ++ "/a/b/c.txt" :=
  (c7_local_dest_path "/tmp/out" "u" (by decide) (by decide)).1

/-- The field-building loop produces, for every start index, exactly the
spec-described per-file parts in walk order. -/
theorem build_fields_go_eq_spec (src : String) :
    ∀ (file_paths : List String) (n : Nat),
    build_fields_go src n file_paths =
      (List.enumFrom n file_paths).flatMap (fun fi =>
        [("raw.asset" ++ toString fi.1, FieldVal.filePart (os_path_basename fi.2) fi.2),
         ("raw.asset" ++ toString fi.1 ++ ".filename",
            FieldVal.textPart (some ((os_path_relpath fi.2 src).replace "/" "/")))]) := by
  intro file_paths
  induction file_paths with
  | nil => intro n; rfl
  | cons fp rest ih =>
    intro n
    rw [show List.enumFrom n (fp :: rest) = (n, fp) :: List.enumFrom (n + 1) rest from rfl]
    rw [List.flatMap_cons, ← ih (n + 1)]
    rfl

/-- C8: for every upload of a source directory with files f1..fN in walk
order, exactly one POST is issued, to NEXUS_URL/service/rest/v1/components?repository=repo
where repo is the text before the first slash of the destination argument;
its multipart body is, for each file i, a part raw.asset<i> whose filename is
the file's base name plus a sibling text part raw.asset<i>.filename holding
the file's forward-slash-normalised path relative to the source directory,
followed by one part raw.directory carrying the optional subdirectory; an
empty source directory still issues the POST (with zero asset parts) and,
whenever the POST returns a response, no local error is raised. -/
theorem c8_multipart_request (src dest : String) (file_paths : List String) (quiet : Bool)
    (post : Except String UploadResp) (hdest : dest.data.contains '/' = true) :
    (upload_main src dest file_paths quiet post).1.requests =
      [{ url := NEXUS_URL ++ "/service/rest/v1/components?repository=" ++
           String.mk (dest.data.takeWhile (fun c => c != '/')),
         fields := specUploadFields src file_paths (some (split_first dest).2) }] ∧
    (∀ resp, post = Except.ok resp → (upload_main src dest file_paths quiet post).1.raised
      = none) := by
  have hfields : build_fields src file_paths (some (split_first dest).2) =
      specUploadFields src file_paths (some (split_first dest).2) := by
    rw [build_fields, specUploadFields, build_fields_go_eq_spec src file_paths 1]
  constructor
  · unfold upload_main
    rw [hdest]
    simp only [if_true]
    cases post with
    | error e =>
      simp only [upload_files]
      rw [hfields]
      rfl
    | ok resp =>
      simp only [upload_files]
      rw [hfields]
      rfl
  · intro resp hpost
    subst hpost
    rfl

theorem c8_multipart_request_witness :
    (upload_main "d" "builds/release1" ["d/sub/notes.txt"] false
        (Except.ok ⟨204, ""⟩)).1.requests =
      [{ url := NEXUS_URL ++ "/service/rest/v1/components?repository=" ++
           String.mk ("builds/release1".data.takeWhile (fun c => c != '/')),
         fields := specUploadFields "d" ["d/sub/notes.txt"]
           (some (split_first "builds/release1").2) }] :=
  (c8_multipart_request "d" "builds/release1" ["d/sub/notes.txt"] false
    (Except.ok ⟨204, ""⟩) (by decide)).1

/-- C9 counterexample: the claim says the glob pattern is the path p followed
by "/*", but for p = "x" the single request issued by `list_assets` carries
q = "/x/*" (the code prepends a slash), which differs from "x/*". -/
theorem c9_counterexample :
    ((list_assets "r" "x" [⟨200, "", [], none⟩]).1.map (fun q_ => q_.q)) = ["/x/*"] ∧
    ("/x/*" : String) ≠ "x" ++ "/*" := by
  refine ⟨?_, by decide⟩
  decide

end Nexus
